import Mathlib

/-!
Shallow embedding of the Supabase MCP server
(`src/scripts/supabase-mcp-server.py`) for the maritime onboarding
system: the data model, the SQL safety classifier, the tool handlers,
the dispatcher and the resource reader, together with theorems settling
the spec claims.

Modelling conventions:
* Python dict rows are association lists of scalar values (`Row`);
  the backend record client is a function from table name to either the
  table's rows or a raised error message.
* Machine-level details abstracted: case folding is ASCII (the SQL
  keywords involved are ASCII), the wall-clock timestamp of a backup is
  a field of the server state, and JSON serialisation is a plain
  recursive renderer (`jdump`) standing for `json.dumps`.
* Exceptions are `Except String`: `KeyError('k')` stringifies as `'k'`
  and the attribute error on an uninitialised client stringifies as
  `'NoneType' object has no attribute 'table'`, as in CPython.
-/

/-- Scalar JSON-like value stored in a database row. -/
inductive SVal where
  | snull : SVal
  | sbool : Bool → SVal
  | sint : Int → SVal
  | sstr : String → SVal
deriving DecidableEq, Repr

/-- A database row: an insertion-ordered mapping from column name to value. -/
abbrev Row := List (String × SVal)

/-- Python `row.get(k)`: the first value bound to key `k`, if any. -/
def rowGet (r : Row) (k : String) : Option SVal :=
  (r.find? (fun p => p.1 = k)).map (fun p => p.2)

/-- Python truthiness of `row.get(k)` (absent key gives `None`, falsy). -/
def truthy : Option SVal → Bool
  | none => false
  | some SVal.snull => false
  | some (SVal.sbool b) => b
  | some (SVal.sint n) => decide (n ≠ 0)
  | some (SVal.sstr s) => decide (s ≠ "")

/-- JSON value built by the handlers before serialisation. -/
inductive JVal where
  | jnull : JVal
  | jbool : Bool → JVal
  | jint : Int → JVal
  | jrat : ℚ → JVal
  | jstr : String → JVal
  | jarr : List JVal → JVal
  | jobj : List (String × JVal) → JVal

/-- Inject a row scalar into a JSON value. -/
def SVal.toJ : SVal → JVal
  | SVal.snull => JVal.jnull
  | SVal.sbool b => JVal.jbool b
  | SVal.sint n => JVal.jint n
  | SVal.sstr s => JVal.jstr s

/-- A row as the JSON object the backend reports it as. -/
def Row.toJ (r : Row) : JVal :=
  JVal.jobj (r.map (fun p => (p.1, p.2.toJ)))

mutual
/-- Serialise a JSON value; stands for Python `json.dumps` (whitespace
and number formatting are abstracted, the structure is kept). -/
def jdump : JVal → String
  | JVal.jnull => "null"
  | JVal.jbool true => "true"
  | JVal.jbool false => "false"
  | JVal.jint n => toString n
  | JVal.jrat q => toString q
  | JVal.jstr s => "\"" ++ s ++ "\""
  | JVal.jarr xs => "[" ++ jdumpArr xs ++ "]"
  | JVal.jobj fs => "\x7b" ++ jdumpObj fs ++ "\x7d"

/-- Serialise the elements of a JSON array. -/
def jdumpArr : List JVal → String
  | [] => ""
  | [x] => jdump x
  | x :: y :: xs => jdump x ++ ", " ++ jdumpArr (y :: xs)

/-- Serialise the fields of a JSON object. -/
def jdumpObj : List (String × JVal) → String
  | [] => ""
  | [(k, v)] => "\"" ++ k ++ "\": " ++ jdump v
  | (k, v) :: y :: xs => "\"" ++ k ++ "\": " ++ jdump v ++ ", " ++ jdumpObj (y :: xs)
end

/-- Field lookup in a JSON object (`none` on a non-object). -/
def jlookup (v : JVal) (k : String) : Option JVal :=
  match v with
  | JVal.jobj fs => fs.lookup k
  | _ => none

/-- Whether a JSON value is an array (Python `isinstance(v, list)`). -/
def JVal.isArr : JVal → Bool
  | JVal.jarr _ => true
  | _ => false

/-- Python `round(x, 2)` modelled exactly on rationals. -/
def round2 (q : ℚ) : ℚ := (round (q * 100) : ℤ) / 100

-- ## SQL safety classifier (`_is_read_only_query`, lines 607-626)

/-- The read-only keyword whitelist of `_is_read_only_query`. -/
def read_only_keywords : List String :=
  ["SELECT", "SHOW", "DESCRIBE", "DESC", "EXPLAIN", "WITH"]

/-- The mutating keyword blacklist of `_is_read_only_query`. -/
def write_keywords : List String :=
  ["INSERT", "UPDATE", "DELETE", "DROP", "CREATE", "ALTER", "TRUNCATE", "GRANT", "REVOKE"]

/-- ASCII whitespace stripped by Python `str.strip()`. -/
def isPySpace (c : Char) : Bool :=
  (c == ' ') || (c == '\t') || (c == '\n') || (c == '\r') || (c == '\x0b') || (c == '\x0c')

/-- Python `query.strip().upper()` (ASCII case folding), at the level
of the query's character sequence. -/
def foldQuery (query : String) : List Char :=
  (((query.data.dropWhile isPySpace).reverse.dropWhile isPySpace).reverse).map Char.toUpper

/-- The classifier `_is_read_only_query`: prefix whitelist first, then a
substring scan for mutating keywords, defaulting to read-only. -/
def is_read_only_query (query : String) : Bool :=
  let query_upper := foldQuery query
  if read_only_keywords.any (fun kw => decide (kw.data <+: query_upper)) then
    true
  else if write_keywords.any (fun kw => decide (kw.data <:+: query_upper)) then
    false
  else
    true

/-- The spec's `QueryClassification` enum. -/
inductive QueryClassification where
  | ReadOnly : QueryClassification
  | Mutating : QueryClassification
deriving DecidableEq

/-- The classifier as the spec's `classify` contract. -/
def classify (query : String) : QueryClassification :=
  if is_read_only_query query then QueryClassification.ReadOnly
  else QueryClassification.Mutating

-- ## Protocol data model

/-- A `TextContent(type="text", text=...)` response item. -/
structure TextContent where
  text : String
deriving DecidableEq, Repr

/-- A call issued to one of the two backends during a handler run. -/
inductive BackendCall where
  | select : String → BackendCall
  | insert : String → Row → BackendCall
  | update : String → Row → List (String × SVal) → BackendCall
  | delete : String → List (String × SVal) → BackendCall
  | sql : String → List SVal → BackendCall
  | pgTables : String → BackendCall
  | pgColumns : String → BackendCall
  | pgCount : String → BackendCall
deriving DecidableEq, Repr

/-- The argument mapping of an invocation: each key of the tool input
schemas, present or absent, as Python's `args` dict. -/
structure Args where
  schema : Option String
  table_name : Option String
  include_data : Option Bool
  columns : Option (List String)
  filters : Option (List (String × SVal))
  limit : Option Nat
  order_by : Option String
  data : Option Row
  query : Option String
  params : Option (List SVal)
  allow_write : Option Bool
  user_id : Option String
  include_details : Option Bool
  date_range : Option String
  group_by : Option String
  tables : Option (List String)
  format : Option String

/-- The empty argument mapping. -/
def Args.empty : Args :=
  ⟨none, none, none, none, none, none, none, none, none,
   none, none, none, none, none, none, none, none⟩

/-- Python `str(KeyError('k'))`, the message the dispatcher reports when
a handler indexes a missing required argument. -/
def keyError (k : String) : String := "'" ++ k ++ "'"

/-- Python `str(AttributeError)` raised by `None.<attr>` when the
record client is uninitialised. -/
def noneTypeErr (attr : String) : String :=
  "'NoneType' object has no attribute '" ++ attr ++ "'"

/-- The record-oriented backend client (`self.supabase`): a select-all
per table that either returns the table's rows or raises. It models
both the table contents and the backend's per-table availability. -/
structure SupabaseClient where
  selectAll : String → Except String (List Row)

/-- The optional direct connection (`self.db_connection`): catalogue
introspection, row counting and raw SQL, each fallible. `runQuery`
returns `none` when the cursor reports no result shape. -/
structure PgConn where
  tablesOf : String → Except String (List Row)
  columnsOf : String → Except String (List Row)
  countOf : String → Except String Nat
  runQuery : String → List SVal → Except String (Option (List Row))

/-- The server state fixed at startup: the two optional backends and
the wall clock (read only by `backup_database`'s timestamp). -/
structure ServerState where
  supabase : Option SupabaseClient
  db_connection : Option PgConn
  now : String

/-- Outcome of one handler: the backend calls it issued, and either the
returned response items or the exception it let escape to the
dispatcher. -/
structure HandlerOut where
  calls : List BackendCall
  result : Except String (List TextContent)

/-- Conjunctive equality `FilterSet` application, as the chained
`query.eq(key, value)` calls. -/
def matchesFilters (fs : List (String × SVal)) (r : Row) : Bool :=
  fs.all (fun p => decide (rowGet r p.1 = some p.2))

/-- Overwrite or append one column of a row. -/
def rowSet (r : Row) (k : String) (v : SVal) : Row :=
  if r.any (fun p => p.1 = k) then
    r.map (fun p => if p.1 = k then (k, v) else p)
  else
    r ++ [(k, v)]

/-- Apply an update payload to a row, as the backend reports the row
after `update(data)`. -/
def rowMerge (r : Row) (d : Row) : Row :=
  d.foldl (fun acc p => rowSet acc p.1 p.2) r

-- ## Tool handlers

/-- The hard-coded fallback catalogue of `_list_tables` (lines 386-394),
used when the direct connection is absent. -/
def fallbackTables : List Row :=
  [[("table_name", SVal.sstr "users"), ("table_type", SVal.sstr "BASE TABLE"), ("table_schema", SVal.sstr "public")],
   [("table_name", SVal.sstr "user_progress"), ("table_type", SVal.sstr "BASE TABLE"), ("table_schema", SVal.sstr "public")],
   [("table_name", SVal.sstr "training_items"), ("table_type", SVal.sstr "BASE TABLE"), ("table_schema", SVal.sstr "public")],
   [("table_name", SVal.sstr "quiz_responses"), ("table_type", SVal.sstr "BASE TABLE"), ("table_schema", SVal.sstr "public")],
   [("table_name", SVal.sstr "certificates"), ("table_type", SVal.sstr "BASE TABLE"), ("table_schema", SVal.sstr "public")],
   [("table_name", SVal.sstr "security_events"), ("table_type", SVal.sstr "BASE TABLE"), ("table_schema", SVal.sstr "public")],
   [("table_name", SVal.sstr "user_sessions"), ("table_type", SVal.sstr "BASE TABLE"), ("table_schema", SVal.sstr "public")]]

/-- The result dict of `_list_tables`. -/
def listTablesJ (schema : String) (tables : List Row) : JVal :=
  JVal.jobj [("schema", JVal.jstr schema),
             ("tables", JVal.jarr (tables.map Row.toJ)),
             ("count", JVal.jint tables.length)]

/-- Handler `_list_tables` (lines 361-405): bail out with a plain
message when the record client is uninitialised; introspect through the
direct connection when present, else fall back to the static list. -/
def listTables (st : ServerState) (args : Args) : HandlerOut :=
  match st.supabase with
  | none => ⟨[], Except.ok [⟨"Supabase client not initialized"⟩]⟩
  | some _ =>
    let schema := args.schema.getD "public"
    match st.db_connection with
    | some conn =>
      match conn.tablesOf schema with
      | Except.ok tables =>
        ⟨[BackendCall.pgTables schema], Except.ok [⟨jdump (listTablesJ schema tables)⟩]⟩
      | Except.error e =>
        ⟨[BackendCall.pgTables schema], Except.ok [⟨"Error listing tables: " ++ e⟩]⟩
    | none =>
      ⟨[], Except.ok [⟨jdump (listTablesJ schema fallbackTables)⟩]⟩

/-- The result dict of `_describe_table`. -/
def describeTableJ (t : String) (columns : List Row) (row_count : Nat)
    (sample : Option (List Row)) : JVal :=
  JVal.jobj ([("table_name", JVal.jstr t),
              ("columns", JVal.jarr (columns.map Row.toJ)),
              ("row_count", JVal.jint row_count)]
    ++ (match sample with
        | some rows => [("sample_data", JVal.jarr (rows.map Row.toJ))]
        | none => []))

/-- Handler `_describe_table` (lines 407-457). The source's row-count
statements are mis-indented (the file does not parse past line 435);
modelled at their evidently intended position inside the cursor block.
Sample rows are fetched through the record client when requested and
the table is non-empty. -/
def describeTable (st : ServerState) (args : Args) : HandlerOut :=
  match args.table_name with
  | none => ⟨[], Except.error (keyError "table_name")⟩
  | some t =>
    let include_data := args.include_data.getD false
    match st.db_connection with
    | some conn =>
      match conn.columnsOf t with
      | Except.error e =>
        ⟨[BackendCall.pgColumns t], Except.ok [⟨"Error describing table " ++ t ++ ": " ++ e⟩]⟩
      | Except.ok columns =>
        match conn.countOf t with
        | Except.error e =>
          ⟨[BackendCall.pgColumns t, BackendCall.pgCount t],
           Except.ok [⟨"Error describing table " ++ t ++ ": " ++ e⟩]⟩
        | Except.ok row_count =>
          if include_data && decide (0 < row_count) then
            match st.supabase with
            | some client =>
              match client.selectAll t with
              | Except.error e =>
                ⟨[BackendCall.pgColumns t, BackendCall.pgCount t, BackendCall.select t],
                 Except.ok [⟨"Error describing table " ++ t ++ ": " ++ e⟩]⟩
              | Except.ok rows =>
                ⟨[BackendCall.pgColumns t, BackendCall.pgCount t, BackendCall.select t],
                 Except.ok [⟨jdump (describeTableJ t columns row_count (some (rows.take 5)))⟩]⟩
            | none =>
              ⟨[BackendCall.pgColumns t, BackendCall.pgCount t],
               Except.ok [⟨jdump (describeTableJ t columns row_count none)⟩]⟩
          else
            ⟨[BackendCall.pgColumns t, BackendCall.pgCount t],
             Except.ok [⟨jdump (describeTableJ t columns row_count none)⟩]⟩
    | none =>
      match st.supabase with
      | none => ⟨[], Except.ok [⟨"Error describing table " ++ t ++ ": " ++ noneTypeErr "table"⟩]⟩
      | some client =>
        match client.selectAll t with
        | Except.error e =>
          ⟨[BackendCall.select t], Except.ok [⟨"Error describing table " ++ t ++ ": " ++ e⟩]⟩
        | Except.ok rows =>
          if include_data && decide (0 < rows.length) then
            match client.selectAll t with
            | Except.error e =>
              ⟨[BackendCall.select t, BackendCall.select t],
               Except.ok [⟨"Error describing table " ++ t ++ ": " ++ e⟩]⟩
            | Except.ok rows2 =>
              ⟨[BackendCall.select t, BackendCall.select t],
               Except.ok [⟨jdump (describeTableJ t [] rows.length (some (rows2.take 5)))⟩]⟩
          else
            ⟨[BackendCall.select t], Except.ok [⟨jdump (describeTableJ t [] rows.length none)⟩]⟩

/-- A fixed syntactic total order on optional scalars, standing for the
backend's `ORDER BY` comparison on a column's values. -/
def svalLe : Option SVal → Option SVal → Bool
  | none, _ => true
  | some _, none => false
  | some SVal.snull, _ => true
  | some _, some SVal.snull => false
  | some (SVal.sbool a), some (SVal.sbool b) => !a || b
  | some (SVal.sbool _), some _ => true
  | some _, some (SVal.sbool _) => false
  | some (SVal.sint a), some (SVal.sint b) => decide (a ≤ b)
  | some (SVal.sint _), some _ => true
  | some _, some (SVal.sint _) => false
  | some (SVal.sstr a), some (SVal.sstr b) => decide (a ≤ b)

/-- The result dict of `_query_table`. -/
def queryTableJ (t : String) (fs : List (String × SVal)) (dat : List Row) : JVal :=
  JVal.jobj [("table_name", JVal.jstr t),
             ("filters", JVal.jobj (fs.map (fun p => (p.1, p.2.toJ)))),
             ("row_count", JVal.jint dat.length),
             ("data", JVal.jarr (dat.map Row.toJ))]

/-- Handler `_query_table` (lines 459-499): column projection, equality
filters, optional ordering, then the limit (default 100). The
uninitialised client's attribute error is caught by the handler's own
`except` and reported inline. -/
def queryTable (st : ServerState) (args : Args) : HandlerOut :=
  match args.table_name with
  | none => ⟨[], Except.error (keyError "table_name")⟩
  | some t =>
    let cols := args.columns.getD ["*"]
    let fs := args.filters.getD []
    let lim := args.limit.getD 100
    match st.supabase with
    | none => ⟨[], Except.ok [⟨"Error querying table " ++ t ++ ": " ++ noneTypeErr "table"⟩]⟩
    | some client =>
      match client.selectAll t with
      | Except.error e =>
        ⟨[BackendCall.select t], Except.ok [⟨"Error querying table " ++ t ++ ": " ++ e⟩]⟩
      | Except.ok rows =>
        let projected :=
          if !cols.isEmpty && decide (cols ≠ ["*"]) then
            rows.map (fun r => r.filter (fun p => cols.contains p.1))
          else rows
        let filtered := projected.filter (matchesFilters fs)
        let ordered :=
          match args.order_by with
          | some c => filtered.mergeSort (fun a b => svalLe (rowGet a c) (rowGet b c))
          | none => filtered
        let dat := ordered.take lim
        ⟨[BackendCall.select t], Except.ok [⟨jdump (queryTableJ t fs dat)⟩]⟩

/-- The result dict of `_insert_data`. -/
def insertDataJ (t : String) (dat : List Row) : JVal :=
  JVal.jobj [("table_name", JVal.jstr t),
             ("inserted_rows", JVal.jint dat.length),
             ("data", JVal.jarr (dat.map Row.toJ))]

/-- Handler `_insert_data` (lines 501-518): one backend insert; the
backend reports the inserted row back. -/
def insertData (st : ServerState) (args : Args) : HandlerOut :=
  match args.table_name with
  | none => ⟨[], Except.error (keyError "table_name")⟩
  | some t =>
    match args.data with
    | none => ⟨[], Except.error (keyError "data")⟩
    | some d =>
      match st.supabase with
      | none => ⟨[], Except.ok [⟨"Error inserting data into " ++ t ++ ": " ++ noneTypeErr "table"⟩]⟩
      | some client =>
        match client.selectAll t with
        | Except.error e =>
          ⟨[BackendCall.insert t d], Except.ok [⟨"Error inserting data into " ++ t ++ ": " ++ e⟩]⟩
        | Except.ok _ =>
          ⟨[BackendCall.insert t d], Except.ok [⟨jdump (insertDataJ t [d])⟩]⟩

/-- The result dict of `_update_data`. -/
def updateDataJ (t : String) (fs : List (String × SVal)) (dat : List Row) : JVal :=
  JVal.jobj [("table_name", JVal.jstr t),
             ("updated_rows", JVal.jint dat.length),
             ("filters", JVal.jobj (fs.map (fun p => (p.1, p.2.toJ)))),
             ("data", JVal.jarr (dat.map Row.toJ))]

/-- Handler `_update_data` (lines 520-545): requires `table_name`,
`data` and `filters` to be PRESENT (a missing key raises to the
dispatcher), then issues the update with however many equality
constraints the FilterSet holds — an empty FilterSet updates the whole
table. -/
def updateData (st : ServerState) (args : Args) : HandlerOut :=
  match args.table_name with
  | none => ⟨[], Except.error (keyError "table_name")⟩
  | some t =>
    match args.data with
    | none => ⟨[], Except.error (keyError "data")⟩
    | some d =>
      match args.filters with
      | none => ⟨[], Except.error (keyError "filters")⟩
      | some fs =>
        match st.supabase with
        | none => ⟨[], Except.ok [⟨"Error updating data in " ++ t ++ ": " ++ noneTypeErr "table"⟩]⟩
        | some client =>
          match client.selectAll t with
          | Except.error e =>
            ⟨[BackendCall.update t d fs], Except.ok [⟨"Error updating data in " ++ t ++ ": " ++ e⟩]⟩
          | Except.ok rows =>
            let affected := (rows.filter (matchesFilters fs)).map (fun r => rowMerge r d)
            ⟨[BackendCall.update t d fs], Except.ok [⟨jdump (updateDataJ t fs affected)⟩]⟩

/-- The result dict of `_delete_data`. -/
def deleteDataJ (t : String) (fs : List (String × SVal)) (n : Nat) : JVal :=
  JVal.jobj [("table_name", JVal.jstr t),
             ("deleted_rows", JVal.jint n),
             ("filters", JVal.jobj (fs.map (fun p => (p.1, p.2.toJ))))]

/-- Handler `_delete_data` (lines 547-570): requires `table_name` and
`filters` to be PRESENT, then issues the delete with the FilterSet's
constraints — an empty FilterSet deletes the whole table. -/
def deleteData (st : ServerState) (args : Args) : HandlerOut :=
  match args.table_name with
  | none => ⟨[], Except.error (keyError "table_name")⟩
  | some t =>
    match args.filters with
    | none => ⟨[], Except.error (keyError "filters")⟩
    | some fs =>
      match st.supabase with
      | none => ⟨[], Except.ok [⟨"Error deleting data from " ++ t ++ ": " ++ noneTypeErr "table"⟩]⟩
      | some client =>
        match client.selectAll t with
        | Except.error e =>
          ⟨[BackendCall.delete t fs], Except.ok [⟨"Error deleting data from " ++ t ++ ": " ++ e⟩]⟩
        | Except.ok rows =>
          let affected := rows.filter (matchesFilters fs)
          ⟨[BackendCall.delete t fs], Except.ok [⟨jdump (deleteDataJ t fs affected.length)⟩]⟩

/-- The gate-rejection message of `_execute_sql` (line 584). -/
def writeGateMsg : String :=
  "Write operations require explicit confirmation. Set allow_write=true to execute."

/-- The no-direct-connection message of `_execute_sql` (line 580). -/
def needConnMsg : String := "Direct SQL execution requires PostgreSQL connection"

/-- The result dict of `_execute_sql` when the cursor has a result shape. -/
def sqlResultsJ (q : String) (rows : List Row) : JVal :=
  JVal.jobj [("query", JVal.jstr q),
             ("row_count", JVal.jint rows.length),
             ("data", JVal.jarr (rows.map Row.toJ))]

/-- The result dict of `_execute_sql` when the cursor reports no shape. -/
def sqlNoResultsJ (q : String) : JVal :=
  JVal.jobj [("query", JVal.jstr q),
             ("message", JVal.jstr "Query executed successfully (no results returned)")]

/-- Handler `_execute_sql` (lines 572-605): requires a direct
connection, then enforces the read-only gate unless `allow_write` was
passed true, and only then runs the statement. -/
def executeSql (st : ServerState) (args : Args) : HandlerOut :=
  match args.query with
  | none => ⟨[], Except.error (keyError "query")⟩
  | some q =>
    let params := args.params.getD []
    let allow_write := args.allow_write.getD false
    match st.db_connection with
    | none => ⟨[], Except.ok [⟨needConnMsg⟩]⟩
    | some conn =>
      if !allow_write && !is_read_only_query q then
        ⟨[], Except.ok [⟨writeGateMsg⟩]⟩
      else
        match conn.runQuery q params with
        | Except.error e =>
          ⟨[BackendCall.sql q params], Except.ok [⟨"Error executing SQL: " ++ e⟩]⟩
        | Except.ok (some rows) =>
          ⟨[BackendCall.sql q params], Except.ok [⟨jdump (sqlResultsJ q rows)⟩]⟩
        | Except.ok none =>
          ⟨[BackendCall.sql q params], Except.ok [⟨jdump (sqlNoResultsJ q)⟩]⟩

/-- The number of progress entries marked completed (Python truthiness
of `p.get("completed")`). -/
def countCompleted (pdata : List Row) : Nat :=
  (pdata.filter (fun p => truthy (rowGet p "completed"))).length

/-- The `completion_stats` block of `_get_user_progress` (lines 652-658). -/
def completionStatsJ (pdata : List Row) : JVal :=
  JVal.jobj [("total_items", JVal.jint pdata.length),
             ("completed_items", JVal.jint (countCompleted pdata)),
             ("completion_percentage",
              JVal.jrat (round2 ((countCompleted pdata : ℚ) / (pdata.length : ℚ) * 100)))]

/-- The result dict of `_get_user_progress`: the stats block is
appended only when the progress list is non-empty (Python
`if progress_response.data:`). -/
def userProgressJ (uid : String) (user : Row) (pdata : List Row)
    (include_details : Bool) : JVal :=
  JVal.jobj ([("user_id", JVal.jstr uid),
              ("user_info", user.toJ),
              ("progress_entries", JVal.jint pdata.length),
              ("progress", if include_details then JVal.jarr (pdata.map Row.toJ) else JVal.jarr [])]
    ++ (if pdata.isEmpty then [] else [("completion_stats", completionStatsJ pdata)]))

/-- Handler `_get_user_progress` (lines 628-663): user lookup by id,
then progress lookup by user id; "not found" is a soft message. -/
def getUserProgress (st : ServerState) (args : Args) : HandlerOut :=
  match args.user_id with
  | none => ⟨[], Except.error (keyError "user_id")⟩
  | some uid =>
    let include_details := args.include_details.getD true
    match st.supabase with
    | none => ⟨[], Except.ok [⟨"Error getting user progress: " ++ noneTypeErr "table"⟩]⟩
    | some client =>
      match client.selectAll "users" with
      | Except.error e =>
        ⟨[BackendCall.select "users"], Except.ok [⟨"Error getting user progress: " ++ e⟩]⟩
      | Except.ok users =>
        match users.filter (matchesFilters [("id", SVal.sstr uid)]) with
        | [] =>
          ⟨[BackendCall.select "users"], Except.ok [⟨"User " ++ uid ++ " not found"⟩]⟩
        | user :: _ =>
          match client.selectAll "user_progress" with
          | Except.error e =>
            ⟨[BackendCall.select "users", BackendCall.select "user_progress"],
             Except.ok [⟨"Error getting user progress: " ++ e⟩]⟩
          | Except.ok prog =>
            let pdata := prog.filter (matchesFilters [("user_id", SVal.sstr uid)])
            ⟨[BackendCall.select "users", BackendCall.select "user_progress"],
             Except.ok [⟨jdump (userProgressJ uid user pdata include_details)⟩]⟩

/-- The result dict of `_get_training_analytics`: the completion rate
is computed only for a positive denominator, else reported as 0. -/
def analyticsJ (date_range group_by : String) (total_users total_entries completed : Nat) : JVal :=
  JVal.jobj [("date_range", JVal.jstr date_range),
             ("group_by", JVal.jstr group_by),
             ("analytics",
              JVal.jobj [("total_users", JVal.jint total_users),
                         ("total_progress_entries", JVal.jint total_entries),
                         ("completed_entries", JVal.jint completed),
                         ("completion_rate",
                          if decide (0 < total_entries) then
                            JVal.jrat (round2 ((completed : ℚ) / (total_entries : ℚ) * 100))
                          else JVal.jint 0)])]

/-- Handler `_get_training_analytics` (lines 665-699). -/
def getTrainingAnalytics (st : ServerState) (args : Args) : HandlerOut :=
  let date_range := args.date_range.getD "30d"
  let group_by := args.group_by.getD "phase"
  match st.supabase with
  | none => ⟨[], Except.ok [⟨"Error getting training analytics: " ++ noneTypeErr "table"⟩]⟩
  | some client =>
    match client.selectAll "users" with
    | Except.error e =>
      ⟨[BackendCall.select "users"], Except.ok [⟨"Error getting training analytics: " ++ e⟩]⟩
    | Except.ok users =>
      match client.selectAll "user_progress" with
      | Except.error e =>
        ⟨[BackendCall.select "users", BackendCall.select "user_progress"],
         Except.ok [⟨"Error getting training analytics: " ++ e⟩]⟩
      | Except.ok prog =>
        ⟨[BackendCall.select "users", BackendCall.select "user_progress"],
         Except.ok [⟨jdump (analyticsJ date_range group_by users.length prog.length
                      (countCompleted prog))⟩]⟩

/-- The default table list of `_backup_database` (line 711). -/
def defaultBackupTables : List String :=
  ["users", "user_progress", "training_items", "quiz_responses", "certificates"]

/-- One table's backup attempt (lines 713-718): the per-table `try`
catches both a backend failure and the uninitialised client's
attribute error, recording an error string for that table only. -/
def backupEntry (sup : Option SupabaseClient) (t : String) :
    List BackendCall × (String × JVal) :=
  match sup with
  | none => ([], (t, JVal.jstr ("Error backing up table: " ++ noneTypeErr "table")))
  | some client =>
    match client.selectAll t with
    | Except.ok rows => ([BackendCall.select t], (t, JVal.jarr (rows.map Row.toJ)))
    | Except.error e => ([BackendCall.select t], (t, JVal.jstr ("Error backing up table: " ++ e)))

/-- The result dict of `_backup_database` (lines 720-726). -/
def backupJ (now fmt : String) (tables : List String) (bd : List (String × JVal)) : JVal :=
  JVal.jobj [("backup_timestamp", JVal.jstr now),
             ("format", JVal.jstr fmt),
             ("tables_backed_up",
              JVal.jint (tables.filter (fun t => ((bd.lookup t).map JVal.isArr).getD false)).length),
             ("backup_data", JVal.jobj bd)]

/-- The key/value pair recorded for one table in `backup_data`. -/
def backupValue (sup : Option SupabaseClient) (t : String) : JVal :=
  (backupEntry sup t).2.2

/-- The backend calls issued by the per-table backup loop. -/
def backupCalls (sup : Option SupabaseClient) (tables : List String) : List BackendCall :=
  (tables.map (fun t => (backupEntry sup t).1)).flatten

/-- The `backup_data` mapping accumulated by the per-table loop, in
iteration order. -/
def backupData (sup : Option SupabaseClient) (tables : List String) : List (String × JVal) :=
  tables.map (fun t => (backupEntry sup t).2)

/-- Handler `_backup_database` (lines 701-731): an empty/absent table
list defaults to the five known tables; each table is attempted
independently and the overall call always returns normally. -/
def backupDatabase (st : ServerState) (args : Args) : HandlerOut :=
  let tables0 := args.tables.getD []
  let format_type := args.format.getD "json"
  let tables := if tables0.isEmpty then defaultBackupTables else tables0
  ⟨backupCalls st.supabase tables,
   Except.ok [⟨jdump (backupJ st.now format_type tables (backupData st.supabase tables))⟩]⟩

-- ## Dispatcher and resources

/-- The registered tool names, in registration order. -/
def toolNames : List String :=
  ["list_tables", "describe_table", "query_table", "insert_data", "update_data",
   "delete_data", "execute_sql", "get_user_progress", "get_training_analytics",
   "backup_database"]

/-- The routing of `handle_call_tool` (lines 297-318) before its
exception wrapper: the selected handler's outcome, or the soft
unknown-tool message. -/
def dispatchHandler (st : ServerState) (name : String) (args : Args) : HandlerOut :=
  if name = "list_tables" then listTables st args
  else if name = "describe_table" then describeTable st args
  else if name = "query_table" then queryTable st args
  else if name = "insert_data" then insertData st args
  else if name = "update_data" then updateData st args
  else if name = "delete_data" then deleteData st args
  else if name = "execute_sql" then executeSql st args
  else if name = "get_user_progress" then getUserProgress st args
  else if name = "get_training_analytics" then getTrainingAnalytics st args
  else if name = "backup_database" then backupDatabase st args
  else ⟨[], Except.ok [⟨"Unknown tool: " ++ name⟩]⟩

/-- `handle_call_tool` (lines 294-321): the dispatch boundary's
`except` turns any escaped exception into an `Error: <message>`
response; the dispatcher itself never raises. -/
def handleCallTool (st : ServerState) (name : String) (args : Args) :
    List BackendCall × List TextContent :=
  ((dispatchHandler st name args).calls,
   match (dispatchHandler st name args).result with
   | Except.ok r => r
   | Except.error e => [⟨"Error: " ++ e⟩])

/-- The arguments `{"schema": "public"}` used by both catalogue resources. -/
def schemaPublicArgs : Args := { Args.empty with schema := some "public" }

/-- Resource `supabase://schema` (`_get_schema_resource`, lines
734-740): re-invokes `_list_tables` and returns its text verbatim; its
`except` would render an error object. -/
def getSchemaResource (st : ServerState) : String :=
  match (listTables st schemaPublicArgs).result with
  | Except.ok (c :: _) => c.text
  | Except.ok [] => jdump (JVal.jobj [("error", JVal.jstr "list index out of range")])
  | Except.error e => jdump (JVal.jobj [("error", JVal.jstr e)])

/-- Resource `supabase://tables` (`_get_tables_resource`, lines
742-748): the same computation as the schema resource. -/
def getTablesResource (st : ServerState) : String :=
  match (listTables st schemaPublicArgs).result with
  | Except.ok (c :: _) => c.text
  | Except.ok [] => jdump (JVal.jobj [("error", JVal.jstr "list index out of range")])
  | Except.error e => jdump (JVal.jobj [("error", JVal.jstr e)])

/-- Resource `supabase://analytics` (`_get_analytics_resource`, lines
750-756). -/
def getAnalyticsResource (st : ServerState) : String :=
  match (getTrainingAnalytics st { Args.empty with date_range := some "30d" }).result with
  | Except.ok (c :: _) => c.text
  | Except.ok [] => jdump (JVal.jobj [("error", JVal.jstr "list index out of range")])
  | Except.error e => jdump (JVal.jobj [("error", JVal.jstr e)])

/-- `handle_read_resource` (lines 349-358): a known URI yields its
view; an unknown URI RAISES `ValueError("Unknown resource: <uri>")`
rather than returning a soft message. -/
def handleReadResource (st : ServerState) (uri : String) : Except String String :=
  if uri = "supabase://schema" then Except.ok (getSchemaResource st)
  else if uri = "supabase://tables" then Except.ok (getTablesResource st)
  else if uri = "supabase://analytics" then Except.ok (getAnalyticsResource st)
  else Except.error ("Unknown resource: " ++ uri)

-- ## Shared lemmas

/-- The classifier returns ReadOnly exactly when the boolean check passes. -/
theorem classify_eq_ReadOnly_iff (q : String) :
    classify q = QueryClassification.ReadOnly ↔ is_read_only_query q = true := by
  unfold classify
  cases h : is_read_only_query q <;> simp [h]

/-- Characterisation of `_is_read_only_query`: a whitelisted prefix, or
no blacklisted keyword anywhere. -/
theorem iro_characterisation (q : String) :
    is_read_only_query q = true ↔
      ((∃ kw ∈ read_only_keywords, kw.data <+: foldQuery q) ∨
       (∀ kw ∈ write_keywords, ¬ kw.data <:+: foldQuery q)) := by
  by_cases hp : ∃ kw ∈ read_only_keywords, kw.data <+: foldQuery q
  · have ha : read_only_keywords.any (fun kw => decide (kw.data <+: foldQuery q)) = true := by
      simpa [List.any_eq_true] using hp
    simp [is_read_only_query, ha, hp]
  · have ha : read_only_keywords.any (fun kw => decide (kw.data <+: foldQuery q)) = false := by
      simp only [List.any_eq_false, decide_eq_true_eq]
      push_neg at hp
      exact hp
    by_cases hn : ∀ kw ∈ write_keywords, ¬ kw.data <:+: foldQuery q
    · have hb : write_keywords.any (fun kw => decide (kw.data <:+: foldQuery q)) = false := by
        simp only [List.any_eq_false, decide_eq_true_eq]
        exact hn
      simp only [is_read_only_query, ha, hb, Bool.false_eq_true, if_false, true_iff]
      exact Or.inr hn
    · have hb : write_keywords.any (fun kw => decide (kw.data <:+: foldQuery q)) = true := by
        simp only [List.any_eq_true, decide_eq_true_eq]
        push_neg at hn
        obtain ⟨kw, h1, h2⟩ := hn
        exact ⟨kw, h1, h2⟩
      simp [is_read_only_query, ha, hb, hp, hn]

-- ## Claims about the classifier

/-- C2: for every SQL string Q the classifier returns ReadOnly exactly
when the trimmed, uppercased form of Q either starts with one of the
whitelisted read-only keywords (checked first, prefix match only) or
contains none of the mutating keywords anywhere as a substring;
otherwise it returns Mutating. In particular the prefix check
short-circuits on "SELECT 1; DROP TABLE x". -/
theorem C2_classifier_characterisation :
    (∀ q : String,
      classify q = QueryClassification.ReadOnly ↔
        ((∃ kw ∈ read_only_keywords, kw.data <+: foldQuery q) ∨
         (∀ kw ∈ write_keywords, ¬ kw.data <:+: foldQuery q))) ∧
    classify "SELECT 1; DROP TABLE x" = QueryClassification.ReadOnly := by
  constructor
  · intro q
    rw [classify_eq_ReadOnly_iff]
    exact iro_characterisation q
  · decide

/-- C3 counterexample: "VACUUM" has no whitelisted read-only prefix and
yet is classified ReadOnly (the classifier's default branch), so
ReadOnly is NOT equivalent to having a whitelisted prefix. -/
theorem C3_counterexample :
    ¬ (classify "VACUUM" = QueryClassification.ReadOnly ↔
       ∃ kw ∈ read_only_keywords, kw.data <+: foldQuery "VACUUM") := by
  decide

/-- C3 (amended): a query whose case-folded trimmed form starts with a
whitelisted prefix is classified ReadOnly regardless of any trailing
content; the converse direction of the claim fails (see the
counterexample). -/
theorem C3_prefix_forces_ReadOnly (q : String)
    (h : ∃ kw ∈ read_only_keywords, kw.data <+: foldQuery q) :
    classify q = QueryClassification.ReadOnly := by
  rw [classify_eq_ReadOnly_iff, iro_characterisation]
  exact Or.inl h

/-- C3 witness: the prefix rule applied to the known-gap query, whose
trailing content contains DROP. -/
theorem C3_prefix_forces_ReadOnly_witness :
    classify "SELECT 1; DROP TABLE x" = QueryClassification.ReadOnly :=
  C3_prefix_forces_ReadOnly "SELECT 1; DROP TABLE x" (by decide)

-- ## Concrete fixtures for closed instantiations

/-- A sample user row. -/
def demoUsersRow : Row := [("id", SVal.sstr "u1"), ("name", SVal.sstr "Ada")]

/-- A sample update payload. -/
def demoPayload : Row := [("name", SVal.sstr "X")]

/-- A record client over a tiny database: "users" holds one row, the
table "boom" raises, every other table is empty. -/
def demoClient : SupabaseClient :=
  ⟨fun t =>
    if t = "users" then Except.ok [demoUsersRow]
    else if t = "boom" then Except.error "backend down"
    else Except.ok []⟩

/-- A direct connection whose statements run and report no result shape. -/
def demoConn : PgConn :=
  ⟨fun _ => Except.ok [], fun _ => Except.ok [], fun _ => Except.ok 0,
   fun _ _ => Except.ok none⟩

/-- Server state with both backends configured. -/
def demoState : ServerState := ⟨some demoClient, some demoConn, "2024-01-01T00:00:00+00:00"⟩

/-- Server state with no backend configured (missing credentials). -/
def noClientState : ServerState := ⟨none, none, "2024-01-01T00:00:00+00:00"⟩

/-- Arguments for a mutation on "users" that OMIT the filters key. -/
def missingFiltersArgs : Args := { Args.empty with table_name := some "users", data := some demoPayload }

/-- Arguments for update_data on "users" with an EMPTY FilterSet. -/
def emptyFiltersUpdateArgs : Args := { Args.empty with table_name := some "users", data := some demoPayload, filters := some [] }

/-- Arguments for delete_data on "users" with an EMPTY FilterSet. -/
def emptyFiltersDeleteArgs : Args := { Args.empty with table_name := some "users", filters := some [] }

-- ## C1: filter validation of the mutation handlers

/-- C1 counterexample: invoked with an explicitly empty FilterSet,
update_data and delete_data do NOT fail validation — each issues its
backend mutation with zero filter constraints (an unscoped whole-table
mutation). -/
theorem C1_counterexample :
    (updateData demoState emptyFiltersUpdateArgs).calls
      = [BackendCall.update "users" demoPayload []] ∧
    (deleteData demoState emptyFiltersDeleteArgs).calls
      = [BackendCall.delete "users" []] :=
  ⟨rfl, rfl⟩

/-- C1 (amended): only a MISSING filters argument is rejected before
any backend call — the handler raises `KeyError('filters')`, which the
dispatcher converts to the Failure text `Error: 'filters'` — while an
empty FilterSet is not validated and the mutation is issued with zero
constraints. -/
theorem C1_filters_validation (st : ServerState) (args : Args) (t : String) (d : Row)
    (client : SupabaseClient) (conn : Option PgConn) (now : String)
    (ht : args.table_name = some t) (hd : args.data = some d) (hf : args.filters = none) :
    updateData st args = ⟨[], Except.error (keyError "filters")⟩ ∧
    deleteData st args = ⟨[], Except.error (keyError "filters")⟩ ∧
    (handleCallTool st "update_data" args).2 = [⟨"Error: " ++ keyError "filters"⟩] ∧
    (handleCallTool st "delete_data" args).2 = [⟨"Error: " ++ keyError "filters"⟩] ∧
    (∀ args2 : Args, args2.table_name = some t → args2.data = some d →
       args2.filters = some [] →
       (updateData ⟨some client, conn, now⟩ args2).calls = [BackendCall.update t d []]) ∧
    (∀ args2 : Args, args2.table_name = some t → args2.filters = some [] →
       (deleteData ⟨some client, conn, now⟩ args2).calls = [BackendCall.delete t []]) := by
  have hu : updateData st args = ⟨[], Except.error (keyError "filters")⟩ := by
    unfold updateData
    rw [ht, hd, hf]
  have hdel : deleteData st args = ⟨[], Except.error (keyError "filters")⟩ := by
    unfold deleteData
    rw [ht, hf]
  refine ⟨hu, hdel, ?_, ?_, ?_, ?_⟩
  · have hdisp : dispatchHandler st "update_data" args = updateData st args := rfl
    unfold handleCallTool
    rw [hdisp, hu]
  · have hdisp : dispatchHandler st "delete_data" args = deleteData st args := rfl
    unfold handleCallTool
    rw [hdisp, hdel]
  · intro args2 h1 h2 h3
    unfold updateData
    rcases hsel : client.selectAll t with e | rows <;> simp [h1, h2, h3, hsel]
  · intro args2 h1 h3
    unfold deleteData
    rcases hsel : client.selectAll t with e | rows <;> simp [h1, h3, hsel]

/-- C1 witness: the amended behavior at concrete inputs. -/
theorem C1_filters_validation_witness :
    updateData noClientState missingFiltersArgs = ⟨[], Except.error (keyError "filters")⟩ ∧
    deleteData noClientState missingFiltersArgs = ⟨[], Except.error (keyError "filters")⟩ ∧
    (handleCallTool noClientState "update_data" missingFiltersArgs).2
      = [⟨"Error: " ++ keyError "filters"⟩] ∧
    (handleCallTool noClientState "delete_data" missingFiltersArgs).2
      = [⟨"Error: " ++ keyError "filters"⟩] ∧
    (updateData ⟨some demoClient, none, "T0"⟩ emptyFiltersUpdateArgs).calls
      = [BackendCall.update "users" demoPayload []] ∧
    (deleteData ⟨some demoClient, none, "T0"⟩ emptyFiltersDeleteArgs).calls
      = [BackendCall.delete "users" []] := by
  have h := C1_filters_validation noClientState missingFiltersArgs "users" demoPayload
    demoClient none "T0" rfl rfl rfl
  exact ⟨h.1, h.2.1, h.2.2.1, h.2.2.2.1,
    h.2.2.2.2.1 emptyFiltersUpdateArgs rfl rfl rfl,
    h.2.2.2.2.2 emptyFiltersDeleteArgs rfl rfl⟩

-- ## C4: the raw-SQL write gate

/-- The classifier returns Mutating exactly when the boolean check fails. -/
theorem classify_eq_Mutating_iff (q : String) :
    classify q = QueryClassification.Mutating ↔ is_read_only_query q = false := by
  unfold classify
  cases h : is_read_only_query q <;> simp [h]

/-- C4: an execute_sql invocation whose query is classified Mutating
and whose arguments do not set allow_write to true returns a Failure
message without raising, and issues no query against the backend
connection — the override instruction when a connection exists, the
connection-required message otherwise. -/
theorem C4_write_gate (st : ServerState) (args : Args) (q : String)
    (hq : args.query = some q)
    (hw : args.allow_write.getD false = false)
    (hm : classify q = QueryClassification.Mutating) :
    (executeSql st args).calls = [] ∧
    (executeSql st args).result =
      Except.ok [⟨if st.db_connection.isSome then writeGateMsg else needConnMsg⟩] := by
  have hro : is_read_only_query q = false := (classify_eq_Mutating_iff q).mp hm
  unfold executeSql
  rcases hconn : st.db_connection with _ | conn
  · rw [hq]
    exact ⟨rfl, rfl⟩
  · rw [hq]
    constructor <;> simp [hconn, hw, hro]

/-- C4 witness: the gate at a concrete Mutating query with both
backends configured. -/
theorem C4_write_gate_witness :
    (executeSql demoState { Args.empty with query := some "DROP TABLE x" }).calls = [] ∧
    (executeSql demoState { Args.empty with query := some "DROP TABLE x" }).result
      = Except.ok [⟨writeGateMsg⟩] := by
  have h := C4_write_gate demoState { Args.empty with query := some "DROP TABLE x" }
    "DROP TABLE x" rfl rfl (by decide)
  exact ⟨h.1, h.2⟩

-- ## C5: the dispatch boundary catches handler exceptions

/-- C5: whatever exception a selected handler lets escape, the
dispatcher catches it at the dispatch boundary and answers with the
text `Error: <message>`; `handleCallTool` is total, so no exception
ever propagates past it. -/
theorem C5_dispatch_boundary (st : ServerState) (name : String) (args : Args) (e : String)
    (h : (dispatchHandler st name args).result = Except.error e) :
    handleCallTool st name args = ((dispatchHandler st name args).calls, [⟨"Error: " ++ e⟩]) := by
  unfold handleCallTool
  rw [h]

/-- C5 witness: delete_data invoked without its filters key raises
`KeyError('filters')`, and the dispatcher reports `Error: 'filters'`. -/
theorem C5_dispatch_boundary_witness :
    handleCallTool demoState "delete_data" missingFiltersArgs
      = ([], [⟨"Error: " ++ "'filters'"⟩]) :=
  C5_dispatch_boundary demoState "delete_data" missingFiltersArgs "'filters'" rfl

-- ## C6: degraded mode without credentials

set_option maxRecDepth 20000 in
/-- C6 counterexample: with the record client uninitialised,
list_tables does NOT return the hard-coded static table list — it
returns the bare "Supabase client not initialized" message — and
query_table reports the raw 'NoneType' attribute error, a Failure text
that nowhere contains "client not initialized". -/
theorem C6_counterexample :
    listTables noClientState Args.empty
      = ⟨[], Except.ok [⟨"Supabase client not initialized"⟩]⟩ ∧
    "Supabase client not initialized" ≠ jdump (listTablesJ "public" fallbackTables) ∧
    (queryTable noClientState { Args.empty with table_name := some "users" }).result
      = Except.ok [⟨"Error querying table users: " ++ noneTypeErr "table"⟩] ∧
    ¬ ("client not initialized".data <:+:
        ("Error querying table users: " ++ noneTypeErr "table").data) := by
  refine ⟨rfl, ?_, rfl, ?_⟩ <;> decide

/-- C6 (amended): with the record client uninitialised, list_tables
returns the plain "Supabase client not initialized" message — the
static fallback list is produced only when the client IS present and
the direct connection is absent — while the other backend-dependent
handlers catch the attribute error inside their own try blocks and
return a Failure message embedding the raw 'NoneType' error text
instead of crashing. -/
theorem C6_degraded_mode (st : ServerState) (hsup : st.supabase = none) :
    (∀ args, listTables st args = ⟨[], Except.ok [⟨"Supabase client not initialized"⟩]⟩) ∧
    (∀ (client : SupabaseClient) (now : String) (args : Args),
       listTables ⟨some client, none, now⟩ args
         = ⟨[], Except.ok [⟨jdump (listTablesJ (args.schema.getD "public") fallbackTables)⟩]⟩) ∧
    (∀ args t, args.table_name = some t →
       queryTable st args
         = ⟨[], Except.ok [⟨"Error querying table " ++ t ++ ": " ++ noneTypeErr "table"⟩]⟩) ∧
    (∀ args t d, args.table_name = some t → args.data = some d →
       insertData st args
         = ⟨[], Except.ok [⟨"Error inserting data into " ++ t ++ ": " ++ noneTypeErr "table"⟩]⟩) ∧
    (∀ args u, args.user_id = some u →
       getUserProgress st args
         = ⟨[], Except.ok [⟨"Error getting user progress: " ++ noneTypeErr "table"⟩]⟩) := by
  refine ⟨?_, ?_, ?_, ?_, ?_⟩
  · intro args
    unfold listTables
    rw [hsup]
  · intro client now args
    rfl
  · intro args t ht
    unfold queryTable
    rw [ht, hsup]
  · intro args t d ht hd
    unfold insertData
    rw [ht, hd, hsup]
  · intro args u hu
    unfold getUserProgress
    rw [hu, hsup]

/-- C6 witness: the degraded behaviors at concrete states. -/
theorem C6_degraded_mode_witness :
    listTables noClientState Args.empty
      = ⟨[], Except.ok [⟨"Supabase client not initialized"⟩]⟩ ∧
    listTables ⟨some demoClient, none, "T0"⟩ Args.empty
      = ⟨[], Except.ok [⟨jdump (listTablesJ "public" fallbackTables)⟩]⟩ ∧
    getUserProgress noClientState { Args.empty with user_id := some "u1" }
      = ⟨[], Except.ok [⟨"Error getting user progress: " ++ noneTypeErr "table"⟩]⟩ := by
  have h := C6_degraded_mode noClientState rfl
  exact ⟨h.1 Args.empty, h.2.1 demoClient "T0" Args.empty,
    h.2.2.2.2 { Args.empty with user_id := some "u1" } "u1" rfl⟩

-- ## C7: the two unknown-identifier paths

/-- The three registered resource URIs. -/
def resourceUris : List String :=
  ["supabase://schema", "supabase://tables", "supabase://analytics"]

/-- C7: an unknown tool name flows back through the normal response
channel as a Success-shaped "Unknown tool: <name>" message, while an
unknown resource URI raises a protocol-level "Unknown resource: <uri>"
error — the two unknown-identifier paths are asymmetric. -/
theorem C7_unknown_asymmetry (st : ServerState) (args : Args) (name uri : String)
    (hname : name ∉ toolNames) (huri : uri ∉ resourceUris) :
    dispatchHandler st name args = ⟨[], Except.ok [⟨"Unknown tool: " ++ name⟩]⟩ ∧
    handleCallTool st name args = ([], [⟨"Unknown tool: " ++ name⟩]) ∧
    handleReadResource st uri = Except.error ("Unknown resource: " ++ uri) := by
  simp only [toolNames, List.mem_cons, List.not_mem_nil, or_false, not_or] at hname
  obtain ⟨h1, h2, h3, h4, h5, h6, h7, h8, h9, h10⟩ := hname
  simp only [resourceUris, List.mem_cons, List.not_mem_nil, or_false, not_or] at huri
  obtain ⟨g1, g2, g3⟩ := huri
  have hd : dispatchHandler st name args = ⟨[], Except.ok [⟨"Unknown tool: " ++ name⟩]⟩ := by
    unfold dispatchHandler
    simp only [if_neg h1, if_neg h2, if_neg h3, if_neg h4, if_neg h5, if_neg h6, if_neg h7,
      if_neg h8, if_neg h9, if_neg h10]
  refine ⟨hd, ?_, ?_⟩
  · unfold handleCallTool
    rw [hd]
  · unfold handleReadResource
    simp only [if_neg g1, if_neg g2, if_neg g3]

/-- C7 witness: a concrete unknown tool name and unknown resource URI. -/
theorem C7_unknown_asymmetry_witness :
    dispatchHandler noClientState "frobnicate" Args.empty
      = ⟨[], Except.ok [⟨"Unknown tool: " ++ "frobnicate"⟩]⟩ ∧
    handleCallTool noClientState "frobnicate" Args.empty
      = ([], [⟨"Unknown tool: " ++ "frobnicate"⟩]) ∧
    handleReadResource noClientState "supabase://bogus"
      = Except.error ("Unknown resource: " ++ "supabase://bogus") :=
  C7_unknown_asymmetry noClientState Args.empty "frobnicate" "supabase://bogus"
    (by decide) (by decide)

-- ## C8: completion statistics of get_user_progress

/-- C8: for a found user, the result carries a completion_stats block
exactly when the user has at least one progress entry: with zero
entries the block is omitted entirely (no fabricated division result),
and with a positive total it holds
completion_percentage = round2(completed/total*100) where completed
counts the entries marked completed. -/
theorem C8_completion_stats (client : SupabaseClient) (conn : Option PgConn) (now : String)
    (args : Args) (uid : String) (users prog : List Row) (user : Row) (rest : List Row)
    (hargs : args.user_id = some uid) (hdet : args.include_details = none)
    (hu : client.selectAll "users" = Except.ok users)
    (hp : client.selectAll "user_progress" = Except.ok prog)
    (hfound : users.filter (matchesFilters [("id", SVal.sstr uid)]) = user :: rest) :
    getUserProgress ⟨some client, conn, now⟩ args
      = ⟨[BackendCall.select "users", BackendCall.select "user_progress"],
         Except.ok [⟨jdump (userProgressJ uid user
           (prog.filter (matchesFilters [("user_id", SVal.sstr uid)])) true)⟩]⟩ ∧
    (∀ pdata : List Row, pdata = [] →
       jlookup (userProgressJ uid user pdata true) "completion_stats" = none) ∧
    (∀ pdata : List Row, pdata ≠ [] →
       jlookup (userProgressJ uid user pdata true) "completion_stats"
         = some (completionStatsJ pdata)) ∧
    (∀ pdata : List Row,
       jlookup (completionStatsJ pdata) "completion_percentage"
         = some (JVal.jrat (round2 ((countCompleted pdata : ℚ) / (pdata.length : ℚ) * 100)))) := by
  refine ⟨?_, ?_, ?_, ?_⟩
  · unfold getUserProgress
    rw [hargs]
    simp only [hdet, Option.getD_none, hu, hfound, hp]
  · intro pdata h
    subst h
    rfl
  · intro pdata h
    cases pdata with
    | nil => exact absurd rfl h
    | cons p ps => rfl
  · intro pdata
    rfl

/-- A record client with one user and three progress entries, two of
them for that user, one of those completed. -/
def progressClient : SupabaseClient :=
  ⟨fun t =>
    if t = "users" then Except.ok [[("id", SVal.sstr "u1")]]
    else if t = "user_progress" then Except.ok
      [[("user_id", SVal.sstr "u1"), ("completed", SVal.sbool true)],
       [("user_id", SVal.sstr "u1"), ("completed", SVal.sbool false)],
       [("user_id", SVal.sstr "u2"), ("completed", SVal.sbool true)]]
    else Except.ok []⟩

/-- The progress table of `progressClient`. -/
def demoProgressRows : List Row :=
  [[("user_id", SVal.sstr "u1"), ("completed", SVal.sbool true)],
   [("user_id", SVal.sstr "u1"), ("completed", SVal.sbool false)],
   [("user_id", SVal.sstr "u2"), ("completed", SVal.sbool true)]]

/-- C8 witness: the handler's behavior on the concrete client, and the
stats block of the two-entry progress list. -/
theorem C8_completion_stats_witness :
    getUserProgress ⟨some progressClient, none, "T0"⟩ { Args.empty with user_id := some "u1" }
      = ⟨[BackendCall.select "users", BackendCall.select "user_progress"],
         Except.ok [⟨jdump (userProgressJ "u1" [("id", SVal.sstr "u1")]
           (demoProgressRows.filter (matchesFilters [("user_id", SVal.sstr "u1")])) true)⟩]⟩ ∧
    jlookup (userProgressJ "u1" [("id", SVal.sstr "u1")]
        (demoProgressRows.filter (matchesFilters [("user_id", SVal.sstr "u1")])) true)
        "completion_stats"
      = some (completionStatsJ
          (demoProgressRows.filter (matchesFilters [("user_id", SVal.sstr "u1")]))) := by
  have h := C8_completion_stats progressClient none "T0"
    { Args.empty with user_id := some "u1" } "u1"
    [[("id", SVal.sstr "u1")]] demoProgressRows [("id", SVal.sstr "u1")] []
    rfl rfl rfl rfl rfl
  exact ⟨h.1, h.2.2.1 _ (by decide)⟩

-- ## C9: per-table independence of backup_database

/-- Each backup entry is keyed by its own table name. -/
theorem backupEntry_snd (sup : Option SupabaseClient) (t : String) :
    (backupEntry sup t).2 = (t, backupValue sup t) := by
  cases sup with
  | none => rfl
  | some client =>
    rcases hsel : client.selectAll t with e | rows <;>
      simp [backupEntry, backupValue, hsel]

/-- The backup data is the table list tagged with each table's value. -/
theorem backupData_eq_map (sup : Option SupabaseClient) (ts : List String) :
    backupData sup ts = ts.map (fun t => (t, backupValue sup t)) := by
  unfold backupData
  induction ts with
  | nil => rfl
  | cons a as ih => simp [backupEntry_snd, ih]

/-- Looking up a key in a list tagged by a function of the key. -/
theorem lookup_map_key (f : String → JVal) (ts : List String) (t : String) (h : t ∈ ts) :
    (ts.map (fun s => (s, f s))).lookup t = some (f t) := by
  induction ts with
  | nil => cases h
  | cons a as ih =>
    rcases List.mem_cons.mp h with h1 | h2
    · subst h1
      simp [List.lookup]
    · by_cases he : t = a
      · subst he
        simp [List.lookup]
      · have : (t == a) = false := beq_false_of_ne he
        simp [List.lookup, this]
        exact ih h2

/-- C9: backup over an explicit table list attempts every table
independently — the call always returns normally with the serialised
backup object, a table whose backend select throws contributes an
error string for that table only, and every table whose select
succeeds contributes its full row list. -/
theorem C9_backup_partial_failure (client : SupabaseClient) (conn : Option PgConn)
    (now : String) (args : Args) (ts : List String)
    (hts : args.tables = some ts) (hne : ts.isEmpty = false) :
    backupDatabase ⟨some client, conn, now⟩ args
      = ⟨backupCalls (some client) ts,
         Except.ok [⟨jdump (backupJ now (args.format.getD "json") ts
           (backupData (some client) ts))⟩]⟩ ∧
    (∀ t ∈ ts, ∀ e, client.selectAll t = Except.error e →
       (backupData (some client) ts).lookup t
         = some (JVal.jstr ("Error backing up table: " ++ e))) ∧
    (∀ t ∈ ts, ∀ rows, client.selectAll t = Except.ok rows →
       (backupData (some client) ts).lookup t
         = some (JVal.jarr (rows.map Row.toJ))) := by
  refine ⟨?_, ?_, ?_⟩
  · unfold backupDatabase
    rw [hts]
    simp only [Option.getD_some, hne, Bool.false_eq_true, if_false]
  · intro t ht e he
    rw [backupData_eq_map, lookup_map_key _ ts t ht]
    simp [backupValue, backupEntry, he]
  · intro t ht rows hr
    rw [backupData_eq_map, lookup_map_key _ ts t ht]
    simp [backupValue, backupEntry, hr]

/-- C9 witness: backing up ["users", "boom"] on the demo client, where
"boom" raises: the call returns normally, "boom" maps to the error
string, and "users" maps to its full row list. -/
theorem C9_backup_partial_failure_witness :
    backupDatabase ⟨some demoClient, none, "T0"⟩ { Args.empty with tables := some ["users", "boom"] }
      = ⟨backupCalls (some demoClient) ["users", "boom"],
         Except.ok [⟨jdump (backupJ "T0" "json" ["users", "boom"]
           (backupData (some demoClient) ["users", "boom"]))⟩]⟩ ∧
    (backupData (some demoClient) ["users", "boom"]).lookup "boom"
      = some (JVal.jstr ("Error backing up table: " ++ "backend down")) ∧
    (backupData (some demoClient) ["users", "boom"]).lookup "users"
      = some (JVal.jarr ([demoUsersRow].map Row.toJ)) := by
  have h := C9_backup_partial_failure demoClient none "T0"
    { Args.empty with tables := some ["users", "boom"] } ["users", "boom"] rfl rfl
  exact ⟨h.1, h.2.1 "boom" (by decide) "backend down" rfl,
    h.2.2 "users" (by decide) [demoUsersRow] rfl⟩

-- ## C10: the schema and tables resources coincide

/-- C10: the schema resource and the tables resource are computed by
re-invoking the list_tables handler with schema "public" and returning
its text payload verbatim, so for every backend state the two resource
URIs yield identical strings and the schema view holds only the table
catalogue. -/
theorem C10_schema_tables_interchangeable (st : ServerState) (s : String)
    (h : (listTables st schemaPublicArgs).result = Except.ok [⟨s⟩]) :
    getSchemaResource st = getTablesResource st ∧
    getSchemaResource st = s ∧
    handleReadResource st "supabase://schema" = Except.ok s ∧
    handleReadResource st "supabase://tables" = Except.ok s := by
  have h1 : getSchemaResource st = s := by
    unfold getSchemaResource
    rw [h]
  have h2 : getTablesResource st = s := by
    unfold getTablesResource
    rw [h]
  refine ⟨h1.trans h2.symm, h1, ?_, ?_⟩
  · unfold handleReadResource
    simp [h1]
  · unfold handleReadResource
    simp [h2]

/-- C10 witness: both resources at the unconfigured state return the
list_tables text. -/
theorem C10_schema_tables_interchangeable_witness :
    getSchemaResource noClientState = getTablesResource noClientState ∧
    getSchemaResource noClientState = "Supabase client not initialized" ∧
    handleReadResource noClientState "supabase://schema"
      = Except.ok "Supabase client not initialized" ∧
    handleReadResource noClientState "supabase://tables"
      = Except.ok "Supabase client not initialized" :=
  C10_schema_tables_interchangeable noClientState "Supabase client not initialized" rfl
